import Mathlib

/-!
Verification of the CasaPose orchestration loop ("DetecTracker").

The repository's own files are a Colab notebook (`OpenPose25/tf_openpose.ipynb`)
and a README.  The notebook calls `detectracker.run_on_video(video_name, out_dir,
draw_kps, draw_limbs, draw_bbox, n_frames)` on a `DetecTracker` object imported
from the external OpenPoseV2 package; the body of `run_on_video` is therefore not
part of this repository's sources.  Following the specification (spec.md §3-§8),
the orchestration loop, the tracker data model and the error policy are modelled
here as executable Lean definitions, with the external Pose Estimator, the
external assignment rule and the renderer kept as opaque collaborator fields of
`DetecTracker`, exactly as the spec prescribes ("treated as a black box").

The notebook's recorded output cell shows the run reporting
`Wrote video on  ./out.mp4` followed by `Wrote tracks on  ./tracks.pkl`
with `out_dir = './'`; the model reproduces those artifact names and that
reporting order.
-/

/-- A video frame: a pixel buffer, modelled as a list of pixel values. -/
abbrev Frame := List Nat

/-- Modelled from the spec: a Detection is "a set of keypoint coordinates
(x, y, confidence) per detected person, plus an optional bounding box"
(spec.md §3).  One value of this type is one person's detection. -/
structure Detection where
  kps : List (Int × Int × Int)
  bbox : Option (Int × Int × Int × Int)
deriving DecidableEq, Repr

/-- Modelled from the spec: a Track is "a persistent identity assigned by the
tracker, consisting of an identifier, a rolling estimate of position/keypoints,
and an age/lifetime counter" (spec.md §3).  `misses` counts consecutive
unmatched frames. -/
structure Track where
  id : Nat
  det : Detection
  misses : Nat
deriving DecidableEq, Repr

/-- A snapshot of one live track, as recorded in the per-frame track log:
"per-track identifier and keypoint/box data" (spec.md §6). -/
structure TrackSnap where
  id : Nat
  det : Detection
deriving DecidableEq, Repr

/-- One record of the track log: the snapshots of all live tracks after one
frame's update.  An empty-track record is `[]`. -/
abbrev TrackRecord := List TrackSnap

/-- Modelled from the spec: the Tracker's mutable state, the set of live tracks
together with the counter from which fresh identifiers are drawn ("track
identifiers are unique within a run and monotonically increasing as new tracks
are created", spec.md §3). -/
structure TrackerState where
  tracks : List Track
  nextId : Nat
deriving DecidableEq, Repr

/-- Apply one frame's assignment outcome to one existing track: a track matched
by some detection takes that detection as its new estimate and resets its miss
counter; an unmatched track ages by one (spec.md §3: "updated each frame it is
matched; destroyed (dropped) after a configurable number of consecutive
unmatched frames").  The identifier is never changed. -/
def stepTrack (dets : List Detection) (assigned : List (Option Nat)) (t : Track) : Track :=
  match (dets.zip assigned).find? (fun p => p.2 == some t.id) with
  | some p => { t with det := p.1, misses := 0 }
  | none => { t with misses := t.misses + 1 }

/-- Create one new track per unmatched detection, drawing identifiers from the
counter in order (spec.md §3: "Created when the tracker first associates an
unmatched detection"). -/
def mkNewTracks : List Detection → Nat → List Track
  | [], _ => []
  | d :: ds, n => { id := n, det := d, misses := 0 } :: mkNewTracks ds (n + 1)

/-- The live tracks that survive one frame: every existing track is aged or
refreshed by `stepTrack`, then tracks whose consecutive-miss count exceeds
`maxAge` are dropped (spec.md §3). -/
def agedSurvivors (dets : List Detection) (assigned : List (Option Nat))
    (maxAge : Nat) (tracks : List Track) : List Track :=
  (tracks.map (stepTrack dets assigned)).filter (fun t => decide (t.misses ≤ maxAge))

/-- The detections of one frame that the assignment rule left unmatched; each
of them spawns a new track (spec.md §3). -/
def unmatchedDets (dets : List Detection) (assigned : List (Option Nat)) :
    List Detection :=
  ((dets.zip assigned).filter (fun p => p.2.isNone)).map Prod.fst

/-- Modelled from the spec: one per-frame Tracker update, `update(detections) ->
tracks` (spec.md §2).  The assignment rule itself is external and opaque
(spec.md §9: "treat it as an opaque collaborator contract"), so it is a
parameter: `assign tracks dets` returns, for each detection, the identifier of
the matched live track, or `none` when the detection is unmatched — or throws,
since the Tracker too may raise a per-frame inference error (spec.md §7: "Pose
Estimator or Tracker throws on a malformed frame").  A thrown assignment is
caught and the frame treated as having zero detections (spec.md §7 policy).
Matched tracks are refreshed, unmatched tracks age and are dropped once their
miss count exceeds `maxAge`, unmatched detections spawn new tracks with fresh
increasing identifiers, and the returned record is the snapshot of the live
tracks. -/
def TrackerState.update
    (assign : List Track → List Detection → Except String (List (Option Nat)))
    (maxAge : Nat) (st : TrackerState) (dets : List Detection) :
    TrackerState × TrackRecord :=
  let r := match assign st.tracks dets with
    | .ok assigned => (dets, assigned)
    | .error _ => ([], [])
  let live := agedSurvivors r.1 r.2 maxAge st.tracks ++
    mkNewTracks (unmatchedDets r.1 r.2) st.nextId
  (⟨live, st.nextId + (unmatchedDets r.1 r.2).length⟩,
   live.map (fun t => ⟨t.id, t.det⟩))

/-- Modelled from the spec: the result of a Read error or a Write error
(spec.md §7 error taxonomy). -/
inductive RunError where
  | readError
  | writeError
deriving DecidableEq, Repr

/-- Modelled from the spec: the input video referenced by `path`; `none` models
a video that cannot be opened (spec.md §4.1: "`path` must reference a readable
video"). -/
structure Video where
  frames : Option (List Frame)

/-- Modelled from the spec: the output directory, with its name and whether it
is writable (spec.md §7: "Output error (unwritable destination)"). -/
structure OutDir where
  dir : String
  writable : Bool

/-- Modelled from the spec: the two output artifacts and run observables of one
successful run — the annotated video written through the video writer, the
serialized track log, the closed-writer flag and the reported messages
(spec.md §4.1 "On completion: flush and close the video writer; serialize the
accumulated track log to disk; report the two output paths"). -/
structure RunResult where
  video_path : String
  tracks_path : String
  written_video : List Frame
  written_tracks : List TrackRecord
  writer_closed : Bool
  report : List String
deriving DecidableEq, Repr

/-- Modelled from the spec: the DetecTracker object.  Its external collaborators
are opaque function fields (spec.md §9: "modeled as a capability interface
(`detect`, `update`) with a swappable implementation"): the Pose Estimator
`estimate` and the Tracker's assignment rule `assign` may each fail on a frame
(spec.md §7: "Per-frame inference error (Pose Estimator or Tracker throws on a
malformed frame)"), `maxAge` is the Tracker's lifetime threshold, and `draw`
the overlay renderer invoked with the three drawing toggles. -/
structure DetecTracker where
  estimate : Frame → Except String (List Detection)
  assign : List Track → List Detection → Except String (List (Option Nat))
  maxAge : Nat
  draw : Bool → Bool → Bool → TrackRecord → Frame → Frame

/-- Detections obtained for one frame, with the per-frame error policy applied:
"per-frame inference errors are caught, the frame is treated as having zero
detections, and processing continues" (spec.md §7). -/
def DetecTracker.detsOf (dt : DetecTracker) (frame : Frame) : List Detection :=
  match dt.estimate frame with
  | .ok ds => ds
  | .error _ => []

/-- Modelled from the spec: one iteration of the orchestration loop (spec.md
§4.1 Behavior): obtain detections from the Pose Estimator, obtain updated
tracks from the Tracker, render the requested overlays onto a copy of the frame
if any draw flag is set, and produce the (possibly annotated) frame together
with the new tracker state and the frame's track snapshot. -/
def DetecTracker.processFrame (dt : DetecTracker) (draw_kps draw_limbs draw_bbox : Bool)
    (st : TrackerState) (frame : Frame) : Frame × TrackerState × TrackRecord :=
  let dets := dt.detsOf frame
  let r := TrackerState.update dt.assign dt.maxAge st dets
  let out := if draw_kps || draw_limbs || draw_bbox
    then dt.draw draw_kps draw_limbs draw_bbox r.2 frame
    else frame
  (out, r.1, r.2)

/-- Modelled from the spec: the sequential frame loop — each frame is appended
to the output video and its track snapshot to the in-memory log (spec.md §4.1).
Returns the accumulated output frames, the accumulated track log, and the final
tracker state. -/
def DetecTracker.processFrames (dt : DetecTracker) (draw_kps draw_limbs draw_bbox : Bool) :
    List Frame → TrackerState → List Frame × List TrackRecord × TrackerState
  | [], st => ([], [], st)
  | f :: fs, st =>
    let r := dt.processFrame draw_kps draw_limbs draw_bbox st f
    let rest := dt.processFrames draw_kps draw_limbs draw_bbox fs r.2.1
    (r.1 :: rest.1, r.2.2 :: rest.2.1, rest.2.2)

/-- The frames actually processed: all of them when `max_frames` is `none`,
else at most `max_frames` of them (spec.md §4.1: "`max_frames`, if set, must be
a positive integer bounding how many frames are processed (otherwise process
until end of stream)"). -/
def limitFrames (max_frames : Option Nat) (frames : List Frame) : List Frame :=
  match max_frames with
  | some k => frames.take k
  | none => frames

/-- Modelled from the spec: the orchestration entry point, `run_on_video(path,
out_dir, draw_kps, draw_limbs, draw_bbox, max_frames) -> (video_path,
tracks_path)` (spec.md §4.1), taking exactly the six contract parameters.
A video that cannot be opened is a Read error; an unwritable output directory
is a Write error raised before any frame is processed (spec.md §7, §8); on
success the loop runs over the (possibly limited) frames, the writer is flushed
and closed, the accumulated track log is serialized, and the two output paths
are reported — with the artifact names `out.mp4` and `tracks.pkl` and the
report order recorded in the notebook's output cell. -/
def DetecTracker.run_on_video (dt : DetecTracker) (path : Video) (out_dir : OutDir)
    (draw_kps draw_limbs draw_bbox : Bool) (max_frames : Option Nat) :
    Except RunError RunResult :=
  match path.frames with
  | none => .error .readError
  | some frames =>
    if out_dir.writable then
      let r := dt.processFrames draw_kps draw_limbs draw_bbox (limitFrames max_frames frames) ⟨[], 0⟩
      let vpath := out_dir.dir ++ "out.mp4"
      let tpath := out_dir.dir ++ "tracks.pkl"
      .ok { video_path := vpath
            tracks_path := tpath
            written_video := r.1
            written_tracks := r.2.1
            writer_closed := true
            report := ["Wrote video on  " ++ vpath, "Wrote tracks on  " ++ tpath] }
    else .error .writeError

/-- The tracker invariant of spec.md §3: live track identifiers are strictly
increasing in creation order (hence unique), and all of them are below the
fresh-identifier counter. -/
def TrackerInv (st : TrackerState) : Prop :=
  (st.tracks.map Track.id).Pairwise (· < ·) ∧ ∀ t ∈ st.tracks, t.id < st.nextId

/-! ## Helper lemmas -/

theorem processFrames_video_length (dt : DetecTracker) (k l b : Bool) :
    ∀ (fs : List Frame) (st : TrackerState),
      (dt.processFrames k l b fs st).1.length = fs.length := by
  intro fs
  induction fs with
  | nil => intro st; rfl
  | cons f fs ih =>
    intro st
    simp [DetecTracker.processFrames, ih]

theorem processFrames_tracks_length (dt : DetecTracker) (k l b : Bool) :
    ∀ (fs : List Frame) (st : TrackerState),
      (dt.processFrames k l b fs st).2.1.length = fs.length := by
  intro fs
  induction fs with
  | nil => intro st; rfl
  | cons f fs ih =>
    intro st
    simp [DetecTracker.processFrames, ih]

theorem processFrames_no_draw (dt : DetecTracker) :
    ∀ (fs : List Frame) (st : TrackerState),
      (dt.processFrames false false false fs st).1 = fs := by
  intro fs
  induction fs with
  | nil => intro st; rfl
  | cons f fs ih =>
    intro st
    simp [DetecTracker.processFrames, DetecTracker.processFrame, ih]

/-! ## Witness fixtures: concrete collaborator instances for evaluation -/

/-- A concrete DetecTracker whose Pose Estimator finds nobody, used to evaluate
the theorems on concrete inputs. -/
def dtEmpty : DetecTracker where
  estimate := fun _ => .ok []
  assign := fun _ _ => .ok []
  maxAge := 3
  draw := fun _ _ _ _ f => 0 :: f

/-- The run result of `dtEmpty` on a two-frame video with all draw flags set. -/
def resDraw : RunResult where
  video_path := "./out.mp4"
  tracks_path := "./tracks.pkl"
  written_video := [[0, 1], [0, 2]]
  written_tracks := [[], []]
  writer_closed := true
  report := ["Wrote video on  ./out.mp4", "Wrote tracks on  ./tracks.pkl"]

/-- The run result of `dtEmpty` on a two-frame video with all draw flags off. -/
def resPlain : RunResult where
  video_path := "./out.mp4"
  tracks_path := "./tracks.pkl"
  written_video := [[1], [2]]
  written_tracks := [[], []]
  writer_closed := true
  report := ["Wrote video on  ./out.mp4", "Wrote tracks on  ./tracks.pkl"]

/-! ## Claims -/

/-- C1: the orchestration entry point `run_on_video` takes exactly the six
contract parameters (path, out_dir, draw_kps, draw_limbs, draw_bbox,
max_frames — the signature of `DetecTracker.run_on_video` above), and on
completion the video writer is flushed and closed, the accumulated track log is
serialized to disk, and the two output paths are reported. -/
theorem run_on_video_completion_contract (dt : DetecTracker) (path : Video)
    (out_dir : OutDir) (draw_kps draw_limbs draw_bbox : Bool) (max_frames : Option Nat)
    (res : RunResult)
    (h : dt.run_on_video path out_dir draw_kps draw_limbs draw_bbox max_frames = .ok res) :
    res.writer_closed = true ∧
    res.report = ["Wrote video on  " ++ res.video_path,
                  "Wrote tracks on  " ++ res.tracks_path] ∧
    ∃ frames, path.frames = some frames ∧
      res.written_tracks =
        (dt.processFrames draw_kps draw_limbs draw_bbox
          (limitFrames max_frames frames) ⟨[], 0⟩).2.1 := by
  cases hp : path.frames with
  | none => simp [DetecTracker.run_on_video, hp] at h
  | some frames =>
    by_cases hw : out_dir.writable
    · simp only [DetecTracker.run_on_video, hp, hw, if_true] at h
      cases h
      exact ⟨rfl, rfl, frames, rfl, rfl⟩
    · simp [DetecTracker.run_on_video, hp, hw] at h

/-- Witness for C1: evaluated on a concrete two-frame video. -/
theorem run_on_video_completion_contract_witness :
    dtEmpty.run_on_video ⟨some [[1], [2]]⟩ ⟨"./", true⟩ true true true none = .ok resDraw ∧
    (resDraw.writer_closed = true ∧
     resDraw.report = ["Wrote video on  " ++ resDraw.video_path,
                       "Wrote tracks on  " ++ resDraw.tracks_path] ∧
     ∃ frames, (Video.mk (some [[1], [2]])).frames = some frames ∧
       resDraw.written_tracks =
         (dtEmpty.processFrames true true true (limitFrames none frames) ⟨[], 0⟩).2.1) :=
  ⟨rfl,
   run_on_video_completion_contract dtEmpty ⟨some [[1], [2]]⟩ ⟨"./", true⟩
     true true true none resDraw rfl⟩

/-- C5: an unopenable input video fails the run with a Read error, and an
unwritable output directory fails it with a Write error; both are returned
instead of any `RunResult`, so no frame is processed and no partial artifact
is produced. -/
theorem run_on_video_io_errors (dt : DetecTracker) (out_dir : OutDir)
    (draw_kps draw_limbs draw_bbox : Bool) (max_frames : Option Nat) :
    dt.run_on_video ⟨none⟩ out_dir draw_kps draw_limbs draw_bbox max_frames
      = .error .readError ∧
    ∀ frames, out_dir.writable = false →
      dt.run_on_video ⟨some frames⟩ out_dir draw_kps draw_limbs draw_bbox max_frames
        = .error .writeError := by
  refine ⟨rfl, ?_⟩
  intro frames hw
  simp [DetecTracker.run_on_video, hw]

/-- Witness for C5: evaluated on a concrete unwritable directory and a concrete
unreadable video. -/
theorem run_on_video_io_errors_witness :
    dtEmpty.run_on_video ⟨some [[1]]⟩ ⟨"./", false⟩ true true true none
      = .error .writeError ∧
    dtEmpty.run_on_video ⟨none⟩ ⟨"./", false⟩ true true true none
      = .error .readError :=
  ⟨(run_on_video_io_errors dtEmpty ⟨"./", false⟩ true true true none).2 [[1]] rfl,
   (run_on_video_io_errors dtEmpty ⟨"./", false⟩ true true true none).1⟩

/-- C7: with the draw flags disabled, two runs on the same input produce
identical serialized track logs: the non-rendering path is deterministic, the
Pose Estimator and Tracker being functions of their inputs in this model. -/
theorem run_twice_identical_track_logs (dt : DetecTracker) (path : Video)
    (out_dir : OutDir) (max_frames : Option Nat) (res₁ res₂ : RunResult)
    (h₁ : dt.run_on_video path out_dir false false false max_frames = .ok res₁)
    (h₂ : dt.run_on_video path out_dir false false false max_frames = .ok res₂) :
    res₁.written_tracks = res₂.written_tracks := by
  have h := h₁.symm.trans h₂
  cases h
  rfl

/-- Witness for C7: two concrete runs compared. -/
theorem run_twice_identical_track_logs_witness :
    dtEmpty.run_on_video ⟨some [[1], [2]]⟩ ⟨"./", true⟩ false false false none = .ok resPlain ∧
    resPlain.written_tracks = resPlain.written_tracks :=
  ⟨rfl,
   run_twice_identical_track_logs dtEmpty ⟨some [[1], [2]]⟩ ⟨"./", true⟩ none
     resPlain resPlain rfl rfl⟩

/-- C10: every successful run writes its artifacts under `out_dir` with the
fixed names `out.mp4` and `tracks.pkl`, and the report lists the video path
before the track-log path — matching the notebook's recorded output
(`Wrote video on  ./out.mp4`, then `Wrote tracks on  ./tracks.pkl`). -/
theorem run_on_video_fixed_artifact_names (dt : DetecTracker) (path : Video)
    (out_dir : OutDir) (draw_kps draw_limbs draw_bbox : Bool) (max_frames : Option Nat)
    (res : RunResult)
    (h : dt.run_on_video path out_dir draw_kps draw_limbs draw_bbox max_frames = .ok res) :
    res.video_path = out_dir.dir ++ "out.mp4" ∧
    res.tracks_path = out_dir.dir ++ "tracks.pkl" ∧
    res.report = ["Wrote video on  " ++ res.video_path,
                  "Wrote tracks on  " ++ res.tracks_path] := by
  cases hp : path.frames with
  | none => simp [DetecTracker.run_on_video, hp] at h
  | some frames =>
    by_cases hw : out_dir.writable
    · simp only [DetecTracker.run_on_video, hp, hw, if_true] at h
      cases h
      exact ⟨rfl, rfl, rfl⟩
    · simp [DetecTracker.run_on_video, hp, hw] at h

/-- Witness for C10: evaluated on a concrete run with `out_dir = "./"`, the
paths reduce to `./out.mp4` and `./tracks.pkl` exactly as in the notebook. -/
theorem run_on_video_fixed_artifact_names_witness :
    dtEmpty.run_on_video ⟨some [[1], [2]]⟩ ⟨"./", true⟩ false false false none = .ok resPlain ∧
    (resPlain.video_path = "./" ++ "out.mp4" ∧
     resPlain.tracks_path = "./" ++ "tracks.pkl" ∧
     resPlain.report = ["Wrote video on  " ++ resPlain.video_path,
                        "Wrote tracks on  " ++ resPlain.tracks_path]) :=
  ⟨rfl,
   run_on_video_fixed_artifact_names dtEmpty ⟨some [[1], [2]]⟩ ⟨"./", true⟩
     false false false none resPlain rfl⟩

/-- A concrete DetecTracker whose Pose Estimator fails on every frame, used to
evaluate the per-frame error policy on concrete inputs. -/
def dtErr : DetecTracker where
  estimate := fun _ => .error "inference failed"
  assign := fun _ _ => .ok []
  maxAge := 3
  draw := fun _ _ _ _ f => 0 :: f

/-- A concrete DetecTracker whose Tracker assignment rule fails on every frame,
used to evaluate the per-frame error policy's Tracker branch on concrete
inputs. -/
def dtTrackErr : DetecTracker where
  estimate := fun _ => .ok [⟨[(1, 2, 3)], none⟩]
  assign := fun _ _ => .error "assignment failed"
  maxAge := 3
  draw := fun _ _ _ _ f => 0 :: f

/-- C2: with `max_frames = k` positive and smaller than the input's frame
count, exactly k frames are processed — the output video holds k frames and
the track log holds k records. -/
theorem run_with_frame_cap (dt : DetecTracker) (frames : List Frame)
    (out_dir : OutDir) (draw_kps draw_limbs draw_bbox : Bool) (k : Nat)
    (hw : out_dir.writable = true) (hk : 0 < k) (hkN : k < frames.length) :
    ∃ res, dt.run_on_video ⟨some frames⟩ out_dir draw_kps draw_limbs draw_bbox (some k)
        = .ok res ∧
      res.written_video.length = k ∧ res.written_tracks.length = k := by
  simp only [DetecTracker.run_on_video, hw, if_true]
  refine ⟨_, rfl, ?_, ?_⟩
  · simp only [processFrames_video_length, limitFrames, List.length_take]
    omega
  · simp only [processFrames_tracks_length, limitFrames, List.length_take]
    omega

/-- Witness for C2: a three-frame video capped at two frames. -/
theorem run_with_frame_cap_witness :
    0 < 2 ∧ 2 < ([[1], [2], [3]] : List Frame).length ∧
    ∃ res, dtEmpty.run_on_video ⟨some [[1], [2], [3]]⟩ ⟨"./", true⟩ true true true (some 2)
        = .ok res ∧
      res.written_video.length = 2 ∧ res.written_tracks.length = 2 :=
  ⟨by decide, by decide,
   run_with_frame_cap dtEmpty [[1], [2], [3]] ⟨"./", true⟩ true true true 2
     rfl (by decide) (by decide)⟩

/-- C3: with `max_frames = none`, every frame is processed until end of stream
and the output video's frame count equals the input's. -/
theorem run_full_video (dt : DetecTracker) (frames : List Frame) (out_dir : OutDir)
    (draw_kps draw_limbs draw_bbox : Bool) (hw : out_dir.writable = true) :
    ∃ res, dt.run_on_video ⟨some frames⟩ out_dir draw_kps draw_limbs draw_bbox none
        = .ok res ∧
      res.written_video.length = frames.length ∧
      res.written_tracks.length = frames.length := by
  simp only [DetecTracker.run_on_video, hw, if_true]
  exact ⟨_, rfl, by simp [processFrames_video_length, limitFrames],
         by simp [processFrames_tracks_length, limitFrames]⟩

/-- Witness for C3: an uncapped run on a two-frame video. -/
theorem run_full_video_witness :
    ∃ res, dtEmpty.run_on_video ⟨some [[1], [2]]⟩ ⟨"./", true⟩ true true true none
        = .ok res ∧
      res.written_video.length = ([[1], [2]] : List Frame).length ∧
      res.written_tracks.length = ([[1], [2]] : List Frame).length :=
  run_full_video dtEmpty [[1], [2]] ⟨"./", true⟩ true true true rfl

/-- C6: with all three draw flags false, the frames written to the output video
are exactly the processed input frames, pixel for pixel — nothing other than
drawing modifies frames. -/
theorem run_no_draw_preserves_frames (dt : DetecTracker) (frames : List Frame)
    (out_dir : OutDir) (max_frames : Option Nat) (hw : out_dir.writable = true) :
    ∃ res, dt.run_on_video ⟨some frames⟩ out_dir false false false max_frames
        = .ok res ∧
      res.written_video = limitFrames max_frames frames := by
  simp only [DetecTracker.run_on_video, hw, if_true]
  exact ⟨_, rfl, processFrames_no_draw dt (limitFrames max_frames frames) ⟨[], 0⟩⟩

/-- Witness for C6: a concrete no-draw run returns the input frames unchanged. -/
theorem run_no_draw_preserves_frames_witness :
    ∃ res, dtEmpty.run_on_video ⟨some [[1], [2]]⟩ ⟨"./", true⟩ false false false none
        = .ok res ∧
      res.written_video = limitFrames none [[1], [2]] :=
  run_no_draw_preserves_frames dtEmpty [[1], [2]] ⟨"./", true⟩ none rfl

/-- C4: a frame on which the Pose Estimator — or the Tracker — raises a
per-frame inference error is treated exactly as a frame with zero detections,
and the run is never aborted by such errors: with a readable video and a
writable directory it still completes with a result.  A Pose Estimator error
frame behaves like the same frame under an estimator that finds nobody; a
Tracker error frame behaves like the same frame under collaborators that find
and match nobody. -/
theorem per_frame_errors_treated_as_empty (dt : DetecTracker) (frame : Frame)
    (draw_kps draw_limbs draw_bbox : Bool) (st : TrackerState) :
    (∀ e, dt.estimate frame = .error e →
      dt.processFrame draw_kps draw_limbs draw_bbox st frame =
        ({ dt with estimate := fun _ => .ok [] }).processFrame
          draw_kps draw_limbs draw_bbox st frame) ∧
    (∀ e, dt.assign st.tracks (dt.detsOf frame) = .error e →
      dt.processFrame draw_kps draw_limbs draw_bbox st frame =
        ({ dt with
            estimate := fun _ => .ok []
            assign := fun _ _ => .ok [] }).processFrame
          draw_kps draw_limbs draw_bbox st frame) ∧
    ∀ (frames : List Frame) (out_dir : OutDir) (max_frames : Option Nat),
      out_dir.writable = true →
      ∃ res, dt.run_on_video ⟨some frames⟩ out_dir draw_kps draw_limbs draw_bbox max_frames
          = .ok res := by
  refine ⟨?_, ?_, ?_⟩
  · intro e h
    simp [DetecTracker.processFrame, DetecTracker.detsOf, h]
  · intro e h
    have hR : ({ dt with
        estimate := fun _ => .ok []
        assign := fun _ _ => .ok [] } : DetecTracker).detsOf frame = [] := rfl
    simp [DetecTracker.processFrame, TrackerState.update, h, hR]
  · intro frames out_dir max_frames hw
    simp only [DetecTracker.run_on_video, hw, if_true]
    exact ⟨_, rfl⟩

/-- Witness for C4: an estimator that fails on every frame is handled like one
that finds nobody, a Tracker assignment that fails on every frame is handled
like one that matches nobody with zero detections, and a run under the failing
Tracker still completes. -/
theorem per_frame_errors_treated_as_empty_witness :
    dtErr.processFrame true true true ⟨[], 0⟩ [1] =
      ({ dtErr with estimate := fun _ => .ok [] }).processFrame true true true ⟨[], 0⟩ [1] ∧
    dtTrackErr.processFrame true true true ⟨[], 0⟩ [1] =
      ({ dtTrackErr with
         estimate := fun _ => .ok []
         assign := fun _ _ => .ok [] }).processFrame true true true ⟨[], 0⟩ [1] ∧
    ∃ res, dtTrackErr.run_on_video ⟨some [[1], [2]]⟩ ⟨"./", true⟩ true true true none
        = .ok res :=
  ⟨(per_frame_errors_treated_as_empty dtErr [1] true true true ⟨[], 0⟩).1
      "inference failed" rfl,
   (per_frame_errors_treated_as_empty dtTrackErr [1] true true true ⟨[], 0⟩).2.1
      "assignment failed" rfl,
   (per_frame_errors_treated_as_empty dtTrackErr [1] true true true ⟨[], 0⟩).2.2
      [[1], [2]] ⟨"./", true⟩ none rfl⟩

/-! ## Tracker lemmas for C8 and C9 -/

theorem stepTrack_id (dets : List Detection) (assigned : List (Option Nat)) (t : Track) :
    (stepTrack dets assigned t).id = t.id := by
  cases hf : (dets.zip assigned).find? (fun p => p.2 == some t.id) with
  | none => simp [stepTrack, hf]
  | some p => simp [stepTrack, hf]

theorem update_empty
    (assign : List Track → List Detection → Except String (List (Option Nat)))
    (maxAge : Nat) (n : Nat) :
    TrackerState.update assign maxAge ⟨[], n⟩ [] = (⟨[], n⟩, []) := by
  cases ha : assign [] [] with
  | ok a => simp [TrackerState.update, ha, agedSurvivors, unmatchedDets, mkNewTracks]
  | error e => simp [TrackerState.update, ha, agedSurvivors, unmatchedDets, mkNewTracks]

theorem processFrames_all_empty (dt : DetecTracker) (k l b : Bool)
    (hE : ∀ f, dt.estimate f = .ok []) :
    ∀ (fs : List Frame) (n : Nat),
      (dt.processFrames k l b fs ⟨[], n⟩).2.1
          = List.replicate fs.length ([] : TrackRecord) ∧
      (dt.processFrames k l b fs ⟨[], n⟩).2.2 = ⟨[], n⟩ := by
  intro fs
  induction fs with
  | nil => intro n; exact ⟨rfl, rfl⟩
  | cons f fs ih =>
    intro n
    have hd : dt.detsOf f = [] := by simp [DetecTracker.detsOf, hE f]
    constructor
    · simp [DetecTracker.processFrames, DetecTracker.processFrame, hd, update_empty,
        (ih n).1, List.replicate_succ]
    · simp [DetecTracker.processFrames, DetecTracker.processFrame, hd, update_empty,
        (ih n).2]

theorem mkNewTracks_id_bounds :
    ∀ (ds : List Detection) (n : Nat), ∀ t ∈ mkNewTracks ds n,
      n ≤ t.id ∧ t.id < n + ds.length := by
  intro ds
  induction ds with
  | nil => intro n t ht; simp [mkNewTracks] at ht
  | cons d ds ih =>
    intro n t ht
    simp only [mkNewTracks, List.mem_cons] at ht
    rcases ht with rfl | ht
    · simp only [List.length_cons]
      omega
    · obtain ⟨h1, h2⟩ := ih (n + 1) t ht
      simp only [List.length_cons]
      omega

theorem mkNewTracks_pairwise :
    ∀ (ds : List Detection) (n : Nat),
      ((mkNewTracks ds n).map Track.id).Pairwise (· < ·) := by
  intro ds
  induction ds with
  | nil => intro n; simp [mkNewTracks]
  | cons d ds ih =>
    intro n
    simp only [mkNewTracks, List.map_cons, List.pairwise_cons]
    refine ⟨?_, ih (n + 1)⟩
    intro b hb
    obtain ⟨t, ht, rfl⟩ := List.mem_map.1 hb
    have := (mkNewTracks_id_bounds ds (n + 1) t ht).1
    omega

theorem agedSurvivors_ids_sublist (dets : List Detection) (assigned : List (Option Nat))
    (maxAge : Nat) (tracks : List Track) :
    List.Sublist ((agedSurvivors dets assigned maxAge tracks).map Track.id)
      (tracks.map Track.id) := by
  have h1 : List.Sublist (agedSurvivors dets assigned maxAge tracks)
      (tracks.map (stepTrack dets assigned)) :=
    List.filter_sublist _
  have h2 := h1.map Track.id
  rw [List.map_map] at h2
  have hcomp : Track.id ∘ stepTrack dets assigned = Track.id :=
    funext (stepTrack_id dets assigned)
  rwa [hcomp] at h2

theorem agedSurvivors_id_lt (dets : List Detection) (assigned : List (Option Nat))
    (maxAge : Nat) (tracks : List Track) (n : Nat) (h : ∀ t ∈ tracks, t.id < n) :
    ∀ t ∈ agedSurvivors dets assigned maxAge tracks, t.id < n := by
  intro t ht
  have ht2 : t ∈ tracks.map (stepTrack dets assigned) := List.mem_of_mem_filter ht
  obtain ⟨s, hsmem, rfl⟩ := List.mem_map.1 ht2
  rw [stepTrack_id]
  exact h s hsmem

theorem live_tracks_inv (old : List Track) (n : Nat) (ds : List Detection)
    (hpair : (old.map Track.id).Pairwise (· < ·)) (hlt : ∀ t ∈ old, t.id < n) :
    ((old ++ mkNewTracks ds n).map Track.id).Pairwise (· < ·) ∧
    ∀ t ∈ old ++ mkNewTracks ds n, t.id < n + ds.length := by
  constructor
  · rw [List.map_append, List.pairwise_append]
    refine ⟨hpair, mkNewTracks_pairwise ds n, ?_⟩
    intro a ha b hb
    obtain ⟨ta, hta, rfl⟩ := List.mem_map.1 ha
    obtain ⟨tb, htb, rfl⟩ := List.mem_map.1 hb
    have h1 := hlt ta hta
    have h2 := (mkNewTracks_id_bounds ds n tb htb).1
    omega
  · intro t ht
    rcases List.mem_append.1 ht with h1 | h1
    · have := hlt t h1
      omega
    · exact (mkNewTracks_id_bounds ds n t h1).2

/-- C8: if the Pose Estimator returns an empty detection set on every frame,
the Tracker ends the run with zero tracks and the serialized track log is
exactly N empty-track records for an N-frame video. -/
theorem empty_detections_empty_log (dt : DetecTracker) (frames : List Frame)
    (out_dir : OutDir) (draw_kps draw_limbs draw_bbox : Bool)
    (hE : ∀ f, dt.estimate f = .ok []) (hw : out_dir.writable = true) :
    (dt.processFrames draw_kps draw_limbs draw_bbox frames ⟨[], 0⟩).2.2.tracks = [] ∧
    ∃ res, dt.run_on_video ⟨some frames⟩ out_dir draw_kps draw_limbs draw_bbox none
        = .ok res ∧
      res.written_tracks = List.replicate frames.length ([] : TrackRecord) := by
  constructor
  · rw [(processFrames_all_empty dt draw_kps draw_limbs draw_bbox hE frames 0).2]
  · simp only [DetecTracker.run_on_video, hw, if_true]
    exact ⟨_, rfl,
      by simpa [limitFrames] using
        (processFrames_all_empty dt draw_kps draw_limbs draw_bbox hE frames 0).1⟩

/-- Witness for C8: the nobody-detecting tracker on a concrete two-frame
video. -/
theorem empty_detections_empty_log_witness :
    (dtEmpty.processFrames true true true [[1], [2]] ⟨[], 0⟩).2.2.tracks = [] ∧
    ∃ res, dtEmpty.run_on_video ⟨some [[1], [2]]⟩ ⟨"./", true⟩ true true true none
        = .ok res ∧
      res.written_tracks = List.replicate ([[1], [2]] : List Frame).length ([] : TrackRecord) :=
  empty_detections_empty_log dtEmpty [[1], [2]] ⟨"./", true⟩ true true true
    (fun _ => rfl) rfl

theorem update_core_inv (d : List Detection) (a : List (Option Nat))
    (maxAge : Nat) (tracks : List Track) (n : Nat)
    (hpair : (tracks.map Track.id).Pairwise (· < ·))
    (hlt : ∀ t ∈ tracks, t.id < n) :
    TrackerInv ⟨agedSurvivors d a maxAge tracks ++ mkNewTracks (unmatchedDets d a) n,
      n + (unmatchedDets d a).length⟩ ∧
    ((agedSurvivors d a maxAge tracks ++
      mkNewTracks (unmatchedDets d a) n).map Track.id).Nodup := by
  have hps : ((agedSurvivors d a maxAge tracks).map Track.id).Pairwise (· < ·) :=
    hpair.sublist (agedSurvivors_ids_sublist d a maxAge tracks)
  have hlts := agedSurvivors_id_lt d a maxAge tracks n hlt
  have hmain := live_tracks_inv (agedSurvivors d a maxAge tracks) n
    (unmatchedDets d a) hps hlts
  exact ⟨⟨hmain.1, hmain.2⟩, hmain.1.imp (fun hab => Nat.ne_of_lt hab)⟩

/-- C9: the tracker invariant of spec.md §3 — identifiers strictly increasing
in creation order, all below the fresh-identifier counter — holds of the
initial state and is preserved by every per-frame update step (whether the
assignment rule answers or throws), and under it the live tracks carry
pairwise-distinct identifiers. -/
theorem tracker_ids_unique_increasing
    (assign : List Track → List Detection → Except String (List (Option Nat)))
    (maxAge : Nat) (st : TrackerState) (dets : List Detection) (h : TrackerInv st) :
    TrackerInv (⟨[], 0⟩ : TrackerState) ∧
    TrackerInv (TrackerState.update assign maxAge st dets).1 ∧
    ((TrackerState.update assign maxAge st dets).1.tracks.map Track.id).Nodup := by
  obtain ⟨hpair, hlt⟩ := h
  refine ⟨⟨List.Pairwise.nil, by simp⟩, ?_⟩
  cases ha : assign st.tracks dets with
  | ok assigned =>
    have hu : (TrackerState.update assign maxAge st dets).1 =
        ⟨agedSurvivors dets assigned maxAge st.tracks ++
           mkNewTracks (unmatchedDets dets assigned) st.nextId,
         st.nextId + (unmatchedDets dets assigned).length⟩ := by
      simp only [TrackerState.update, ha]
    rw [hu]
    exact update_core_inv dets assigned maxAge st.tracks st.nextId hpair hlt
  | error e =>
    have hu : (TrackerState.update assign maxAge st dets).1 =
        ⟨agedSurvivors [] [] maxAge st.tracks ++
           mkNewTracks (unmatchedDets [] []) st.nextId,
         st.nextId + (unmatchedDets [] []).length⟩ := by
      simp only [TrackerState.update, ha]
    rw [hu]
    exact update_core_inv [] [] maxAge st.tracks st.nextId hpair hlt

/-- Witness for C9: one concrete update step on a concrete state satisfying
the invariant. -/
theorem tracker_ids_unique_increasing_witness :
    TrackerInv (⟨[⟨0, ⟨[], none⟩, 0⟩], 1⟩ : TrackerState) ∧
    (TrackerInv (⟨[], 0⟩ : TrackerState) ∧
     TrackerInv (TrackerState.update (fun _ _ => .ok [none]) 3
       ⟨[⟨0, ⟨[], none⟩, 0⟩], 1⟩ [⟨[(1, 2, 3)], none⟩]).1 ∧
     ((TrackerState.update (fun _ _ => .ok [none]) 3
       ⟨[⟨0, ⟨[], none⟩, 0⟩], 1⟩ [⟨[(1, 2, 3)], none⟩]).1.tracks.map Track.id).Nodup) :=
  ⟨⟨List.pairwise_singleton _ _, by simp⟩,
   tracker_ids_unique_increasing (fun _ _ => .ok [none]) 3
     ⟨[⟨0, ⟨[], none⟩, 0⟩], 1⟩ [⟨[(1, 2, 3)], none⟩]
     ⟨List.pairwise_singleton _ _, by simp⟩⟩
